import Mathlib

/-!
Shallow embedding of the `vitopy` networking core (files `iotfx/networking.py`,
`iotfx/config.py`, `iotfx/captive.py`) and proofs about the spec's claims.

Conventions of the embedding:
* MicroPython integers are `Nat`/`Int`; byte buffers are `List Nat` (each < 256);
* Python falsiness (`if not x:`) is modelled explicitly (`pyTruthy…` helpers);
* exceptions are `Except PyErr _`; time is an absolute `Nat` number of seconds
  (the poll loop of `sta_connect` advances time by 1 second per iteration,
  mirroring `await asyncio.sleep(1)`).
-/

namespace VitoPy

/-- Python exception kinds that the modelled code can raise. -/
inductive PyErr
  | valueError
  | keyError
  | osError
  | typeError
  | runtimeError
  | attributeError
  | unicodeError
  deriving DecidableEq

/-- Python truthiness of an optional integer (`None` and `0` are falsy). -/
def pyTruthyNat : Option Nat → Bool
  | none => false
  | some v => v ≠ 0

/-- Python truthiness of an optional string (`None` and `""` are falsy). -/
def pyTruthyStr : Option String → Bool
  | none => false
  | some v => v ≠ ""

/-- One lowercase hexadecimal digit, as produced by `bytes.hex()`. -/
def hexDigit (n : Nat) : Char :=
  if n < 10 then Char.ofNat (48 + n) else Char.ofNat (87 + n)

/-- Two lowercase hex characters of one byte, as in `bytes.hex()`. -/
def byteHex (b : Nat) : String :=
  String.mk [hexDigit (b / 16 % 16), hexDigit (b % 16)]

/-- `bytes.hex()`: lowercase hex string of a byte sequence. -/
def bytesHex (bs : List Nat) : String :=
  String.join (bs.map byteHex)

/-- `bytes.hex(":")`: hex string with a colon between bytes. -/
def bytesHexSep (bs : List Nat) : String :=
  String.intercalate ":" (bs.map byteHex)

/-- Python slicing `s[-n:]`: the last `n` characters of `s`
(the whole string when `s` is shorter than `n`). -/
def lastChars (n : Nat) (s : String) : String :=
  String.mk (s.data.drop (s.data.length - n))

/-- Python `str.lower()` (character-wise ASCII lowercasing). -/
def str_lower (s : String) : String :=
  String.mk (s.data.map Char.toLower)

/-- The `AUTH_MODE` lookup table of `networking.py` (numeric auth code to name).
A missing code is a Python `KeyError`, hence `Option`. -/
def AUTH_MODE (code : Nat) : Option String :=
  if code = 0 then some "OPEN"
  else if code = 1 then some "WEP"
  else if code = 2 then some "WPA-PSK"
  else if code = 3 then some "WPA2-PSK"
  else if code = 4 then some "WPA/WPA2-PSK"
  else if code = 5 then some "WPA2-ENTERPRISE"
  else if code = 6 then some "WPA/WPA2-ENTERPRISE"
  else if code = 7 then some "WPA3-PSK"
  else if code = 8 then some "WPA2/WPA3-PSK"
  else if code = 9 then some "OWE"
  else if code = 10 then some "MAX"
  else none

/-- The `WLAN_STATUS` lookup table of `networking.py` (raw status code to name). -/
def WLAN_STATUS (code : Nat) : Option String :=
  if code = 200 then some "BEACON_TIMEOUT"
  else if code = 201 then some "NO_AP_FOUND"
  else if code = 202 then some "AUTH_FAIL"
  else if code = 203 then some "ASSOC_FAIL"
  else if code = 204 then some "HANDSHAKE_TIMEOUT"
  else if code = 1000 then some "IDLE"
  else if code = 1001 then some "CONNECTING"
  else if code = 1010 then some "GOT_IP"
  else none

/-! ### Network scanning (`Networking.scan`) -/

/-- One raw tuple yielded by `wlan_sta.scan()`:
`(ssid, bssid, channel, RSSI, security, hidden)`. -/
structure RawScanEntry where
  ssid : String
  bssid : List Nat
  channel : Nat
  rssi : Int
  security : Nat
  hidden : Bool

/-- The per-network dictionary built by `Networking.scan` for one raw entry. -/
structure ScanEntry where
  bssid_hex : String
  channel : Nat
  rssi : Int
  security : Option String
  is_hidden : Bool
  is_connected : Bool
  rssi_bars : Nat
  deriving DecidableEq

/-- The RSSI-to-bars mapping of `Networking.scan` (lines 236-246 of
`networking.py`): a chain of strict `>` threshold tests. -/
def rssi_bars (rssi : Int) : Nat :=
  if rssi > -50 then 4
  else if rssi > -60 then 3
  else if rssi > -70 then 2
  else if rssi > -80 then 1
  else 0

/-- Builds the scan-result entry for one raw scan tuple, as `Networking.scan`
does; `connected_ssid` is `some s` when the station reports connected with
current ssid `s`, `none` otherwise. -/
def build_scan_entry (connected_ssid : Option String) (e : RawScanEntry) : ScanEntry :=
  { bssid_hex := bytesHexSep e.bssid
    channel := e.channel
    rssi := e.rssi
    security := AUTH_MODE e.security
    is_hidden := e.hidden
    is_connected := match connected_ssid with
      | some cs => e.ssid == cs
      | none => false
    rssi_bars := rssi_bars e.rssi }

/-- The bucket function exactly as the spec words it (inclusive-upper,
exclusive-lower dBm intervals); compared against the code's `rssi_bars`. -/
def spec_signal_bars (rssi : Int) : Nat :=
  if -50 < rssi then 4
  else if -60 < rssi ∧ rssi ≤ -50 then 3
  else if -70 < rssi ∧ rssi ≤ -60 then 2
  else if -80 < rssi ∧ rssi ≤ -70 then 1
  else 0

/-! ### Persistent configuration (`iotfx/config.py`) -/

/-- The NVS blob store backing one `Config` section: an association list from
key name to stored byte blob, newest binding first. -/
def Nvs := List (String × List Nat)

instance : DecidableEq Nvs := by
  unfold Nvs
  infer_instance

/-- `esp32.NVS.set_blob`: (re)bind a key to a blob. -/
def nvsSetBlob (nvs : Nvs) (key : String) (blob : List Nat) : Nvs :=
  (key, blob) :: nvs

/-- `esp32.NVS.get_blob` target lookup (the stored blob for a key). -/
def nvsLookup (nvs : Nvs) (key : String) : Option (List Nat) :=
  List.lookup key nvs

/-- Splits a character list at every `':'`, keeping empty pieces, exactly as
Python `str.split(":")` does. -/
def splitColonAux : List Char → List Char → List (List Char)
  | [], acc => [acc.reverse]
  | c :: cs, acc =>
    if c = ':' then acc.reverse :: splitColonAux cs []
    else splitColonAux cs (c :: acc)

/-- `str.split(":")` of Python. -/
def splitColon (s : String) : List String :=
  (splitColonAux s.data []).map String.mk

/-- Python `int(...)` on a plain decimal digit string (`none` is the
`ValueError` on anything else; the `Config` keys only carry plain decimals). -/
def parseDecimal : List Char → Nat → Option Nat
  | [], acc => some acc
  | c :: cs, acc =>
    if c.isDigit then parseDecimal cs (acc * 10 + (c.toNat - 48)) else none

/-- `key.split(":")` followed by `int(buf_size)`, as `Config` methods do.
`none` models the `ValueError` raised when the key is not `name:size`. -/
def key_split (key : String) : Option (String × Nat) :=
  match splitColon key with
  | [name, sz] =>
    match sz.data with
    | [] => none
    | ds => match parseDecimal ds 0 with
      | some n => some (name, n)
      | none => none
  | _ => none

/-- `str.encode("ascii")`: byte list, or a `UnicodeEncodeError` for a
non-ASCII character. -/
def encode_ascii (s : String) : Option (List Nat) :=
  if s.data.all (fun c => c.toNat < 128) then some (s.data.map Char.toNat) else none

/-- `bytes.decode("ascii")`: string, or a `UnicodeDecodeError` for a byte
at or above 128. -/
def decode_ascii (bs : List Nat) : Option String :=
  if bs.all (fun b => b < 128) then some (String.mk (bs.map (fun b => Char.ofNat b))) else none

/-- `Config.get`: splits the key into name and declared buffer size, reads the
blob into a zero-initialised buffer of that size and decodes the WHOLE buffer
as ASCII.  A missing key is a `KeyError` when `raises` is true and `none`
otherwise; a blob larger than the buffer is the `OSError` of `get_blob`. -/
def Config.get (nvs : Nvs) (key : String) (raises : Bool) : Except PyErr (Option String) :=
  match key_split key with
  | none => .error .valueError
  | some (key_name, buf_size) =>
    match nvsLookup nvs key_name with
    | some blob =>
      if blob.length ≤ buf_size then
        match decode_ascii (blob ++ List.replicate (buf_size - blob.length) 0) with
        | some value => .ok (some value)
        | none => .error .unicodeError
      else .error .osError
    | none => if raises then .error .keyError else .ok none

/-- `Config.set`: splits the key, ASCII-encodes the value and stores the blob. -/
def Config.set (nvs : Nvs) (key : String) (value : String) : Except PyErr Nvs :=
  match key_split key with
  | none => .error .valueError
  | some (key_name, _) =>
    match encode_ascii value with
    | none => .error .unicodeError
    | some data => .ok (nvsSetBlob nvs key_name data)

/-- The string `Config.get` returns after a value `v` was stored under a key of
declared capacity `n`: `v` followed by the remaining zero padding bytes. -/
def pad_nuls (n : Nat) (v : String) : String :=
  String.mk (v.data ++ List.replicate (n - v.length) (Char.ofNat 0))

/-! ### Station connect state machine (`Networking.sta_connect`) -/

/-- The radio environment one `sta_connect` call observes: for poll iteration
`i` (one per second, `i = 0` immediately after the connect request),
`isconnected i` is `wlan_sta.isconnected()` and `status i` the raw numeric
`wlan_sta.status()`. -/
structure StaEnv where
  isconnected : Nat → Bool
  status : Nat → Nat

/-- How one `sta_connect` call ends.  `t` is the poll iteration (seconds since
the attempt started) at which the call returned. -/
inductive ConnectOutcome
  | success (t : Nat) (status : String)
  | failure (t : Nat) (reason : String)
  | statusKeyError (t : Nat)
  | fuelOut
  deriving DecidableEq

/-- The `while not isconnected()` poll loop of `sta_connect`
(lines 345-369 of `networking.py`), one fuel unit per iteration.
`start_time` is the absolute `time.time()` at the start of the attempt, so
`time.time()` during iteration `i` is `start_time + i`; `ste` is the
`start_time_error` variable (`none` models Python `None`, and the `if not
start_time_error` falsiness test is `pyTruthyNat`). -/
def sta_connect_loop (env : StaEnv) (start_time timeout : Nat)
    (ste : Option Nat) (i : Nat) : Nat → ConnectOutcome
  | 0 => .fuelOut
  | fuel + 1 =>
    if env.isconnected i then
      match WLAN_STATUS (env.status i) with
      | some s => .success i s
      | none => .statusKeyError i
    else
      match WLAN_STATUS (env.status i) with
      | none => .statusKeyError i
      | some status =>
        let now := start_time + i
        if status = "NO_AP_FOUND" ∨ status = "AUTH_FAIL" then
          let ste2 := if pyTruthyNat ste then ste else some now
          if now - ste2.getD 0 > 5 then .failure i status
          else if now - start_time > timeout then .failure i "BEACON_TIMEOUT"
          else sta_connect_loop env start_time timeout ste2 (i + 1) fuel
        else
          if now - start_time > timeout then .failure i "BEACON_TIMEOUT"
          else sta_connect_loop env start_time timeout ste (i + 1) fuel

/-- `sta_connect` outcome: runs the poll loop from iteration 0 with no error
timer.  The loop returns by iteration `timeout + 1` at the latest (the timeout
branch fires there), so fuel `timeout + 2` always suffices. -/
def sta_connect (env : StaEnv) (start_time timeout : Nat) : ConnectOutcome :=
  sta_connect_loop env start_time timeout none 0 (timeout + 2)

/-! ### Captive portal store endpoint (`captive.py`) -/

/-- A JSON value in the POST body of `/api/v1/store`. -/
inductive Json
  | str (s : String)
  | num (n : Int)
  | jbool (b : Bool)
  | null
  deriving DecidableEq

/-- `Config.set` applied to a JSON value, as `set_wifi_credentials` receives
one: a non-string has no `.encode`, an `AttributeError`. -/
def cfg_set_json (nvs : Nvs) (key : String) (v : Json) : Except PyErr Nvs :=
  match v with
  | .str s => Config.set nvs key s
  | _ => .error .attributeError

/-- `Networking.set_wifi_credentials`: stores the ssid, then the password.
Returns the raised error (if any) together with the store state afterwards
(a failing second write leaves the first one in place). -/
def set_wifi_credentials (v w : Json) (nvs : Nvs) : Except PyErr Unit × Nvs :=
  match cfg_set_json nvs "ssid:32" v with
  | .error e => (.error e, nvs)
  | .ok n1 =>
    match cfg_set_json n1 "password:32" w with
    | .error e => (.error e, n1)
    | .ok n2 => (.ok (), n2)

/-- `Networking.get_wifi_credentials`: non-strict reads of both keys, then the
`any([not ssid, not password])` falsiness check raising `ValueError`. -/
def get_wifi_credentials (nvs : Nvs) : Except PyErr (String × String) :=
  match Config.get nvs "ssid:32" false with
  | .error e => .error e
  | .ok ssid =>
    match Config.get nvs "password:32" false with
    | .error e => .error e
    | .ok password =>
      if ¬ pyTruthyStr ssid ∨ ¬ pyTruthyStr password then .error .valueError
      else .ok (ssid.getD "", password.getD "")

/-- The HTTP response produced by the `store` handler, or a raised exception
escaping it. -/
inductive StoreResp
  | resp (error_code : Option String) (connected : Bool) (http_code : Nat)
  | raised
  deriving DecidableEq

/-- Everything observable about one `POST /api/v1/store` request. -/
structure StoreOut where
  resp : StoreResp
  invoked_connect : Bool
  scheduled_reset : Bool
  nvs : Nvs
  deriving DecidableEq

/-- The `store` endpoint handler (`captive.py` lines 32-44).  `data` is the
JSON body as key/value pairs; `connect` abstracts `nm.sta_connect`, returning
the `(result, reason)` pair of the call made with the body's two values. -/
def store (data : List (String × Json)) (connect : Json → Json → Bool × String)
    (nvs : Nvs) : StoreOut :=
  match data.lookup "ssid", data.lookup "password" with
  | some v, some w =>
    let r := connect v w
    if ¬ r.1 then
      { resp := .resp (some ("WLAN_CONNECT_" ++ r.2)) false 400
        invoked_connect := true, scheduled_reset := false, nvs := nvs }
    else
      match set_wifi_credentials v w nvs with
      | (.ok _, nvs2) =>
        { resp := .resp none true 200
          invoked_connect := true, scheduled_reset := true, nvs := nvs2 }
      | (.error _, nvs2) =>
        { resp := .raised
          invoked_connect := true, scheduled_reset := true, nvs := nvs2 }
  | _, _ =>
    { resp := .resp (some "POST_INVALID") false 400
      invoked_connect := false, scheduled_reset := false, nvs := nvs }

/-! ### Hostname resolution and access-point lifecycle -/

/-- A MicroPython value as far as `network.hostname` is concerned: either a
string or the coroutine object `generate_hostname()` evaluates to when it is
not awaited (its eventual result is recorded for reference). -/
inductive PyVal
  | str (s : String)
  | coroutine (result : String)
  deriving DecidableEq

/-- Fixed identity of the device: application name and the MAC addresses of
the station and access-point interfaces. -/
structure NetCtx where
  app_name : String
  sta_mac : List Nat
  ap_mac : List Nat

/-- The access-point configuration `ap_start` passes to `wlan_ap.config`. -/
structure ApSetup where
  essid : String
  password : String
  authmode_wpa_wpa2_psk : Bool
  pm_none : Bool
  deriving DecidableEq

/-- The `network.AUTH_*` constant chosen by `ap_start` (subset of the table
actually used, plus the plain-WPA2 mode the spec names). -/
inductive AuthMode
  | AUTH_OPEN
  | AUTH_WPA2_PSK
  | AUTH_WPA_WPA2_PSK
  deriving DecidableEq

/-- Device state touched by the networking operations: the two interface
activation flags, the last applied `network.hostname` value, the configured
AP parameters and the NVS config section. -/
structure Device where
  sta_active : Bool
  ap_active : Bool
  ap_essid : Option String
  ap_password : Option String
  ap_authmode : Option AuthMode
  ap_pm_none : Bool
  net_hostname : PyVal
  nvs : Nvs
  deriving DecidableEq

/-- `network.hostname(x)`: applies a hostname.  MicroPython's implementation
requires a string argument; anything else (for instance an un-awaited
coroutine object) raises `TypeError`. -/
def net_set_hostname (x : PyVal) (d : Device) : Except PyErr Device :=
  match x with
  | .str _ => .ok { d with net_hostname := x }
  | .coroutine _ => .error .typeError

/-- `Networking.generate_hostname` (result the coroutine produces when
awaited): lowercased app name, with `_<last-6-hex-of-station-MAC>` appended
when `unique`. -/
def generate_hostname (unique : Bool) (ctx : NetCtx) : String :=
  if ¬ unique then str_lower ctx.app_name
  else str_lower ctx.app_name ++ "_" ++ lastChars 6 (bytesHex ctx.sta_mac)

/-- `Networking.set_hostname` (lines 97-134 of `networking.py`).
Branch 1 (truthy `explicit`): validate length ≤ 16, apply, persist, return.
Branch 2 (persisted hostname truthy): apply, return (no re-persist).
Branch 3: the source assigns `hostname = self.generate_hostname()` WITHOUT
awaiting it, awaits it once inside the length check, then passes the spent
coroutine object itself to `network.hostname(...)` — a `TypeError` — and would
await it a second time in `cfg.set` (a `RuntimeError`); the first of these
raises, so nothing is applied or persisted. -/
def set_hostname (explicit : Option String) (ctx : NetCtx) (d : Device) :
    Except PyErr String × Device :=
  if pyTruthyStr explicit then
    let h := explicit.getD ""
    if h.length > 16 then (.error .valueError, d)
    else
      match net_set_hostname (.str h) d with
      | .error e => (.error e, d)
      | .ok d1 =>
        match Config.set d1.nvs "hostname:16" h with
        | .error e => (.error e, d1)
        | .ok n2 => (.ok h, { d1 with nvs := n2 })
  else
    match Config.get d.nvs "hostname:16" false with
    | .error e => (.error e, d)
    | .ok configured =>
      if pyTruthyStr configured then
        let c := configured.getD ""
        match net_set_hostname (.str c) d with
        | .error e => (.error e, d)
        | .ok d1 => (.ok c, d1)
      else
        let gen := generate_hostname true ctx
        if gen.length > 16 then (.error .valueError, d)
        else
          match net_set_hostname (.coroutine gen) d with
          | .error e => (.error e, d)
          | .ok d1 => (.error .runtimeError, d1)

/-- `Networking._default_ap_ssid`: app name, a dash, and the last 6 hex
characters of the AP interface MAC. -/
def default_ap_ssid (ctx : NetCtx) : String :=
  ctx.app_name ++ "-" ++ lastChars 6 (bytesHex ctx.ap_mac)

/-- `Networking.ap_start` (lines 253-292): activate the AP interface,
configure `essid = ssid or default`, `password = password or ""`,
`authmode = AUTH_WPA_WPA2_PSK if password else AUTH_OPEN`, `pm = PM_NONE`,
then resolve the hostname via `set_hostname()` (which may raise — see its
branch 3). -/
def ap_start (ssid password : Option String) (ctx : NetCtx) (d : Device) :
    Except PyErr Unit × Device :=
  let d1 := { d with
    ap_active := true
    ap_essid := some (if pyTruthyStr ssid then ssid.getD "" else default_ap_ssid ctx)
    ap_password := some (if pyTruthyStr password then password.getD "" else "")
    ap_authmode := some (if pyTruthyStr password then .AUTH_WPA_WPA2_PSK else .AUTH_OPEN)
    ap_pm_none := true }
  let r := set_hostname none ctx d1
  ((match r.1 with
    | .ok _ => .ok ()
    | .error e => .error e), r.2)

/-- `Networking.ap_stop`: deactivates the AP interface. -/
def ap_stop (d : Device) : Device :=
  { d with ap_active := false }

/-- `Networking.sta_disconnect`: disconnects and deactivates the station
interface. -/
def sta_disconnect (d : Device) : Device :=
  { d with sta_active := false }

/-- `Networking.sta_connect` effect on device state: activates the station
interface if inactive, then on either failure path (latched error or timeout)
disconnects and deactivates it; on success it stays active. -/
def sta_connect_dev (env : StaEnv) (start_time timeout : Nat) (d : Device) :
    ConnectOutcome × Device :=
  let d1 := if ¬ d.sta_active then { d with sta_active := true } else d
  match sta_connect env start_time timeout with
  | .failure t r => (.failure t r, { d1 with sta_active := false })
  | o => (o, d1)

/-! ### Concrete radio environments used in the claims -/

/-- Raw status `NO_AP_FOUND` (201) at every poll, never connected. -/
def envNoAp : StaEnv :=
  { isconnected := fun _ => false, status := fun _ => 201 }

/-- Raw status `CONNECTING` (1001) at every poll, never connected. -/
def envConnecting : StaEnv :=
  { isconnected := fun _ => false, status := fun _ => 1001 }

/-- `[NO_AP_FOUND] * 4` then `GOT_IP`/connected from poll 4 on (the spec's
`[NoApFound]*4 + [GotIp]` sequence sampled once per second). -/
def envShortNoAp : StaEnv :=
  { isconnected := fun i => 4 ≤ i, status := fun i => if i < 4 then 201 else 1010 }

/-- `NO_AP_FOUND` at poll 0 only, `CONNECTING` during polls `1..k`, and
`NO_AP_FOUND` again from poll `k + 1` on: an error classification that goes
away and later recurs. -/
def envRecur (k : Nat) : StaEnv :=
  { isconnected := fun _ => false
    status := fun i => if i = 0 then 201 else if i ≤ k then 1001 else 201 }

/-- A concrete device identity used in the concrete theorems. -/
def ctx0 : NetCtx :=
  { app_name := "Vito"
    sta_mac := [0xaa, 0xbb, 0xcc, 0xdd, 0xee, 0xff]
    ap_mac := [0x01, 0x02, 0x03, 0x04, 0x05, 0x06] }

/-- A freshly booted device: both interfaces inactive, nothing configured,
empty NVS section. -/
def dev0 : Device :=
  { sta_active := false
    ap_active := false
    ap_essid := none
    ap_password := none
    ap_authmode := none
    ap_pm_none := false
    net_hostname := .str ""
    nvs := [] }

/-! ## Theorems -/

/-- Claim C7: for every scan result entry, `signal_bars` equals the spec's
bucket function of `rssi` (`rssi > -50 → 4`; `-60 < rssi ≤ -50 → 3`;
`-70 < rssi ≤ -60 → 2`; `-80 < rssi ≤ -70 → 1`; `rssi ≤ -80 → 0`), and is
exact at the boundary values `-49, -50, -60, -61, -70, -80, -81`. -/
theorem C7_signal_bars :
    (∀ (conn : Option String) (e : RawScanEntry),
      (build_scan_entry conn e).rssi_bars = spec_signal_bars e.rssi) ∧
    rssi_bars (-49) = 4 ∧ rssi_bars (-50) = 3 ∧ rssi_bars (-60) = 2 ∧
    rssi_bars (-61) = 2 ∧ rssi_bars (-70) = 1 ∧ rssi_bars (-80) = 0 ∧
    rssi_bars (-81) = 0 := by
  refine ⟨fun conn e => ?_, by decide, by decide, by decide, by decide,
    by decide, by decide, by decide⟩
  show rssi_bars e.rssi = spec_signal_bars e.rssi
  unfold rssi_bars spec_signal_bars
  split_ifs <;> omega

/-- Claim C4 counterexample: the body `{"ssid": "", "password": ""}` violates
the length constraint `2 ≤ len(ssid)` yet the `store` handler invokes the
station connect operation and (with a connect that succeeds) responds 200,
instead of rejecting with HTTP 400 before any radio side effect. -/
theorem C4_counterexample :
    (store [("ssid", Json.str ""), ("password", Json.str "")]
        (fun _ _ => (true, "GOT_IP")) []).invoked_connect = true ∧
    (store [("ssid", Json.str ""), ("password", Json.str "")]
        (fun _ _ => (true, "GOT_IP")) []).resp = .resp none true 200 ∧
    String.length "" < 2 :=
  ⟨rfl, rfl, by decide⟩

/-- Claim C4 as amended: the only validation the `store` endpoint performs is
presence of the `ssid` and `password` keys — absence of either yields HTTP 400
with code `POST_INVALID` and no connect attempt and no store write, while any
present pair of values (regardless of type or length) is passed to the
station connect operation. -/
theorem C4_amended_validation :
    (∀ (data : List (String × Json)) (connect : Json → Json → Bool × String)
        (nvs : Nvs),
      data.lookup "ssid" = none ∨ data.lookup "password" = none →
      store data connect nvs =
        { resp := .resp (some "POST_INVALID") false 400
          invoked_connect := false, scheduled_reset := false, nvs := nvs }) ∧
    (∀ (data : List (String × Json)) (connect : Json → Json → Bool × String)
        (nvs : Nvs) (v w : Json),
      data.lookup "ssid" = some v → data.lookup "password" = some w →
      (store data connect nvs).invoked_connect = true) := by
  constructor
  · intro data connect nvs h
    unfold store
    rcases h with h | h
    · rw [h]
    · rw [h]
      cases data.lookup "ssid" <;> rfl
  · intro data connect nvs v w hv hw
    unfold store
    rw [hv, hw]
    dsimp only
    split
    · rfl
    · split <;> rfl

/-- Witness for C4's amended theorem at concrete inputs. -/
theorem C4_amended_validation_witness :
    store [("password", Json.str "x")] (fun _ _ => (true, "GOT_IP")) [] =
      { resp := .resp (some "POST_INVALID") false 400
        invoked_connect := false, scheduled_reset := false, nvs := [] } ∧
    (store [("ssid", Json.str "a"), ("password", Json.str "b")]
        (fun _ _ => (false, "NO_AP_FOUND")) []).invoked_connect = true :=
  ⟨C4_amended_validation.1 [("password", Json.str "x")] (fun _ _ => (true, "GOT_IP")) []
      (Or.inl (by decide)),
   C4_amended_validation.2 [("ssid", Json.str "a"), ("password", Json.str "b")]
      (fun _ _ => (false, "NO_AP_FOUND")) [] (Json.str "a") (Json.str "b")
      (by decide) (by decide)⟩

/-- Claim C8: when the station connect attempt made by the `store` endpoint
fails, the response is HTTP 400 with error code `WLAN_CONNECT_<reason>` and
the credential store is completely unchanged (neither key written). -/
theorem C8_store_failure_no_persist
    (data : List (String × Json)) (connect : Json → Json → Bool × String)
    (nvs : Nvs) (v w : Json)
    (hv : data.lookup "ssid" = some v) (hw : data.lookup "password" = some w)
    (hf : (connect v w).1 = false) :
    store data connect nvs =
      { resp := .resp (some ("WLAN_CONNECT_" ++ (connect v w).2)) false 400
        invoked_connect := true, scheduled_reset := false, nvs := nvs } := by
  unfold store
  rw [hv, hw]
  simp [hf]

/-- Witness for C8 at concrete inputs. -/
theorem C8_store_failure_no_persist_witness :
    store [("ssid", Json.str "net"), ("password", Json.str "pw")]
        (fun _ _ => (false, "AUTH_FAIL")) [("ssid", [97])] =
      { resp := .resp (some "WLAN_CONNECT_AUTH_FAIL") false 400
        invoked_connect := true, scheduled_reset := false
        nvs := [("ssid", [97])] } :=
  C8_store_failure_no_persist [("ssid", Json.str "net"), ("password", Json.str "pw")]
    (fun _ _ => (false, "AUTH_FAIL")) [("ssid", [97])]
    (Json.str "net") (Json.str "pw") (by decide) (by decide) (by decide)

/-- Claim C1 counterexample: with raw status `NO_AP_FOUND` at poll 0 only,
`CONNECTING` during polls 1-5 and `NO_AP_FOUND` again from poll 6, `connect`
declares `NO_AP_FOUND` failure at poll 6 — the very first second of the
recurrence — although that classification had not persisted continuously for
more than 5 seconds (it had just reappeared). -/
theorem C1_counterexample :
    sta_connect (envRecur 5) 100 60 = .failure 6 "NO_AP_FOUND" ∧
    WLAN_STATUS ((envRecur 5).status 5) = some "CONNECTING" ∧
    WLAN_STATUS ((envRecur 5).status 6) = some "NO_AP_FOUND" := by
  decide

/-- Claim C2 counterexample: with `timeout = 5` and `NO_AP_FOUND` held
throughout, elapsed time (6 s) exceeds the timeout without the station ever
connecting, yet `connect` reports `NO_AP_FOUND`, not the timeout reason —
the latched-error check precedes the timeout check in the loop body. -/
theorem C2_counterexample :
    sta_connect envNoAp 100 5 = .failure 6 "NO_AP_FOUND" ∧
    5 < 6 ∧ "NO_AP_FOUND" ≠ "BEACON_TIMEOUT" := by
  decide

/-- Claim C3 counterexample: the classification changed from `NO_AP_FOUND`
(poll 0) to `CONNECTING` (polls 1-9), yet when `NO_AP_FOUND` recurs at poll 10
`connect` fails immediately at that poll — the error timer was not cleared by
the change, so the recurrence did not have to persist anew for more than
5 seconds (which would put the earliest failure at poll 16). -/
theorem C3_counterexample :
    sta_connect (envRecur 9) 100 60 = .failure 10 "NO_AP_FOUND" ∧
    WLAN_STATUS ((envRecur 9).status 1) = some "CONNECTING" ∧
    WLAN_STATUS ((envRecur 9).status 9) = some "CONNECTING" ∧
    WLAN_STATUS ((envRecur 9).status 10) = some "NO_AP_FOUND" ∧ 10 < 16 := by
  decide

theorem WLAN_STATUS_201 : WLAN_STATUS 201 = some "NO_AP_FOUND" := by decide

theorem WLAN_STATUS_1001 : WLAN_STATUS 1001 = some "CONNECTING" := by decide

/-- Helper: a `BEACON_TIMEOUT` failure can only come from the timeout branch,
whose guard forces the elapsed time past `timeout`. -/
theorem sta_loop_beacon_gt (env : StaEnv) (st timeout : Nat) :
    ∀ (fuel i : Nat) (ste : Option Nat) (t : Nat),
      sta_connect_loop env st timeout ste i fuel = .failure t "BEACON_TIMEOUT" →
      timeout < t := by
  intro fuel
  induction fuel with
  | zero => intro i ste t h; simp [sta_connect_loop] at h
  | succ f ih =>
    intro i ste t h
    simp only [sta_connect_loop] at h
    split at h
    · split at h <;> simp_all
    · split at h
      · simp_all
      · rename_i status heq
        split_ifs at h <;>
          first
            | exact ih _ _ _ h
            | (injection h with hi hs; omega)
            | simp_all

/-- Helper: every failure return of the poll loop happens at a poll index at
most `timeout + 1` (the loop cannot run past the first poll after timeout). -/
theorem sta_loop_failure_le (env : StaEnv) (st timeout : Nat) :
    ∀ (fuel i : Nat) (ste : Option Nat) (t : Nat) (r : String),
      i ≤ timeout + 1 →
      sta_connect_loop env st timeout ste i fuel = .failure t r →
      t ≤ timeout + 1 := by
  intro fuel
  induction fuel with
  | zero => intro i ste t r hi h; simp [sta_connect_loop] at h
  | succ f ih =>
    intro i ste t r hi h
    simp only [sta_connect_loop] at h
    split at h
    · split at h <;> simp_all
    · split at h
      · simp_all
      · rename_i status heq
        split_ifs at h <;>
          first
            | exact ih _ _ _ _ (by omega) h
            | (injection h with hi2 hs; omega)

/-- Helper: with `CONNECTING` status throughout, the loop runs to the first
poll with elapsed time above `timeout` and fails there with the code's fixed
timeout reason. -/
theorem sta_loop_connecting (st timeout : Nat) :
    ∀ (fuel i : Nat) (ste : Option Nat),
      i + fuel = timeout + 2 → i ≤ timeout + 1 →
      sta_connect_loop envConnecting st timeout ste i fuel =
        .failure (timeout + 1) "BEACON_TIMEOUT" := by
  intro fuel
  induction fuel with
  | zero => intro i ste h1 h2; omega
  | succ f ih =>
    intro i ste h1 h2
    rcases Nat.eq_or_lt_of_le h2 with hc | hc
    · have hto : st + i - st > timeout := by omega
      simp only [sta_connect_loop, envConnecting, WLAN_STATUS_1001]
      simp [hto, hc]
    · have hto : ¬ st + i - st > timeout := by omega
      simp only [sta_connect_loop, envConnecting, WLAN_STATUS_1001]
      simp only [Bool.false_eq_true, if_false]
      rw [if_neg (by decide), if_neg hto]
      exact ih (i + 1) ste (by omega) (by omega)

/-- Helper: with `NO_AP_FOUND` status throughout (from `start_time = 100`),
the error timer is started at poll 0 and the latched-error branch fires at
poll 6, the first poll more than 5 seconds later. -/
theorem sta_loop_noap (timeout : Nat) (ht : 6 ≤ timeout) :
    ∀ (fuel i : Nat) (ste : Option Nat),
      i + fuel = timeout + 2 →
      (i = 0 ∧ ste = none) ∨ (1 ≤ i ∧ i ≤ 6 ∧ ste = some 100) →
      sta_connect_loop envNoAp 100 timeout ste i fuel =
        .failure 6 "NO_AP_FOUND" := by
  intro fuel
  induction fuel with
  | zero =>
    intro i ste h1 h2
    rcases h2 with ⟨hi, _⟩ | ⟨_, hi, _⟩ <;> omega
  | succ f ih =>
    intro i ste h1 h2
    simp only [sta_connect_loop, envNoAp, WLAN_STATUS_201]
    simp only [Bool.false_eq_true, if_false, eq_self_iff_true, true_or, if_true]
    rcases h2 with ⟨hi, hste⟩ | ⟨hi1, hi6, hste⟩
    · subst hi; subst hste
      rw [show (if pyTruthyNat none = true then none else some (100 + 0)) =
          some 100 by simp [pyTruthyNat]]
      simp only [Option.getD_some]
      rw [if_neg (by omega), if_neg (by omega)]
      exact ih 1 (some 100) (by omega) (Or.inr ⟨by omega, by omega, rfl⟩)
    · subst hste
      rw [show (if pyTruthyNat (some 100) = true then some 100 else
          some (100 + i)) = some 100 by simp [pyTruthyNat]]
      simp only [Option.getD_some]
      rcases Nat.eq_or_lt_of_le hi6 with hc | hc
      · subst hc
        rw [if_pos (by omega)]
      · rw [if_neg (by omega), if_neg (by omega)]
        exact ih (i + 1) (some 100) (by omega) (Or.inr ⟨by omega, by omega, rfl⟩)

/-- Helper: in the recurrence environment the error timer set at poll 0 is
never cleared by the intervening `CONNECTING` polls, so the recurrence at poll
`k + 1 > 5` fails at that very poll. -/
theorem sta_loop_recur (k : Nat) (hk5 : 5 ≤ k) (hk60 : k < 60) :
    ∀ (fuel i : Nat) (ste : Option Nat),
      i + fuel = 62 →
      (i = 0 ∧ ste = none) ∨ (1 ≤ i ∧ i ≤ k + 1 ∧ ste = some 100) →
      sta_connect_loop (envRecur k) 100 60 ste i fuel =
        .failure (k + 1) "NO_AP_FOUND" := by
  intro fuel
  induction fuel with
  | zero =>
    intro i ste h1 h2
    rcases h2 with ⟨hi, _⟩ | ⟨_, hi, _⟩ <;> omega
  | succ f ih =>
    intro i ste h1 h2
    simp only [sta_connect_loop, envRecur]
    simp only [Bool.false_eq_true, if_false]
    rcases h2 with ⟨hi, hste⟩ | ⟨hi1, hi6, hste⟩
    · subst hi; subst hste
      rw [show ((if (0 : Nat) = 0 then (201 : Nat) else if 0 ≤ k then 1001
          else 201)) = 201 from by simp]
      rw [WLAN_STATUS_201]
      simp only [eq_self_iff_true, true_or, if_true]
      rw [show (if pyTruthyNat none = true then none else some (100 + 0)) =
          some 100 by simp [pyTruthyNat]]
      simp only [Option.getD_some]
      rw [if_neg (by omega), if_neg (by omega)]
      exact ih 1 (some 100) (by omega) (Or.inr ⟨by omega, by omega, rfl⟩)
    · subst hste
      rcases Nat.eq_or_lt_of_le hi6 with hc | hc
      · subst hc
        rw [show ((if k + 1 = 0 then (201 : Nat) else if k + 1 ≤ k then 1001
            else 201)) = 201 from by rw [if_neg (by omega), if_neg (by omega)]]
        rw [WLAN_STATUS_201]
        simp only [eq_self_iff_true, true_or, if_true]
        rw [show (if pyTruthyNat (some 100) = true then some 100 else
            some (100 + (k + 1))) = some 100 by simp [pyTruthyNat]]
        simp only [Option.getD_some]
        rw [if_pos (by omega)]
      · have hik : i ≤ k := by omega
        rw [show ((if i = 0 then (201 : Nat) else if i ≤ k then 1001
            else 201)) = 1001 from by rw [if_neg (by omega), if_pos hik]]
        rw [WLAN_STATUS_1001]
        simp only
        rw [if_neg (by decide), if_neg (by omega)]
        exact ih (i + 1) (some 100) (by omega) (Or.inr ⟨by omega, by omega, rfl⟩)

/-- Claim C1 as amended: the failure is declared at the first poll at which an
error-class status is observed more than 5 seconds after the FIRST error-class
observation of the call (the timer is started once and never cleared, so
continuous persistence is not required).  In particular the spec's two
examples hold: the `[NoApFound]*4 + [GotIp]` sequence connects successfully at
poll 4, and `NoApFound` held continuously makes `connect` return the
`NO_AP_FOUND` failure at poll 6 — just after the 5-second mark — for every
timeout of at least 6 seconds, rather than at the overall timeout. -/
theorem C1_amended_error_debounce :
    sta_connect envShortNoAp 100 60 = .success 4 "GOT_IP" ∧
    (∀ timeout, 6 ≤ timeout →
      sta_connect envNoAp 100 timeout = .failure 6 "NO_AP_FOUND") := by
  refine ⟨by decide, fun timeout ht => ?_⟩
  show sta_connect_loop envNoAp 100 timeout none 0 (timeout + 2) = _
  exact sta_loop_noap timeout ht (timeout + 2) 0 none (by omega) (Or.inl ⟨rfl, rfl⟩)

/-- Witness for C1's amended theorem at `timeout = 60` (the source default). -/
theorem C1_amended_error_debounce_witness :
    6 ≤ 60 ∧ sta_connect envNoAp 100 60 = .failure 6 "NO_AP_FOUND" :=
  ⟨by decide, C1_amended_error_debounce.2 60 (by decide)⟩

/-- Claim C2 as amended: `connect` never reports the timeout reason before
elapsed time exceeds `timeout`, every failure happens by the first poll after
`timeout` elapses, and when the status stays `CONNECTING` throughout, the
timeout failure (the code returns the fixed `BEACON_TIMEOUT` reason string for
it) is reported exactly at the first poll after `timeout` elapses.  However,
when a latched error classification crosses its 5-second threshold at the
same poll at which elapsed time first exceeds `timeout`, the error reason is
reported instead (the error check precedes the timeout check). -/
theorem C2_amended_timeout :
    (∀ (env : StaEnv) (st timeout t : Nat),
      sta_connect env st timeout = .failure t "BEACON_TIMEOUT" → timeout < t) ∧
    (∀ (env : StaEnv) (st timeout t : Nat) (r : String),
      sta_connect env st timeout = .failure t r → t ≤ timeout + 1) ∧
    (∀ st timeout : Nat,
      sta_connect envConnecting st timeout =
        .failure (timeout + 1) "BEACON_TIMEOUT") := by
  refine ⟨fun env st timeout t h => ?_, fun env st timeout t r h => ?_,
    fun st timeout => ?_⟩
  · exact sta_loop_beacon_gt env st timeout (timeout + 2) 0 none t h
  · exact sta_loop_failure_le env st timeout (timeout + 2) 0 none t r
      (by omega) h
  · show sta_connect_loop envConnecting st timeout none 0 (timeout + 2) = _
    exact sta_loop_connecting st timeout (timeout + 2) 0 none (by omega)
      (by omega)

/-- Witness for C2's amended theorem: a concrete timed-out run. -/
theorem C2_amended_timeout_witness :
    3 < 4 ∧ 4 ≤ 3 + 1 ∧
    sta_connect envConnecting 100 3 = .failure 4 "BEACON_TIMEOUT" :=
  ⟨C2_amended_timeout.1 envConnecting 100 3 4 (by decide),
   C2_amended_timeout.2.1 envConnecting 100 3 4 "BEACON_TIMEOUT" (by decide),
   C2_amended_timeout.2.2 100 3⟩

/-- Claim C3 as amended: the error timer is NEVER cleared within one `connect`
call.  Once the timer was started by the first error-class observation at poll
0, a recurrence of the error classification at poll `k + 1 > 5` — after the
status was a non-error classification during polls `1..k` — declares failure
immediately at that poll, rather than requiring the recurrence to persist
continuously for more than 5 seconds anew. -/
theorem C3_amended_timer_not_cleared :
    ∀ k, 5 ≤ k → k < 60 →
      sta_connect (envRecur k) 100 60 = .failure (k + 1) "NO_AP_FOUND" := by
  intro k hk5 hk60
  show sta_connect_loop (envRecur k) 100 60 none 0 (60 + 2) = _
  exact sta_loop_recur k hk5 hk60 (60 + 2) 0 none (by omega) (Or.inl ⟨rfl, rfl⟩)

/-- Witness for C3's amended theorem at `k = 10`. -/
theorem C3_amended_timer_not_cleared_witness :
    (5 ≤ 10 ∧ 10 < 60) ∧
    sta_connect (envRecur 10) 100 60 = .failure 11 "NO_AP_FOUND" :=
  ⟨⟨by decide, by decide⟩, C3_amended_timer_not_cleared 10 (by decide) (by decide)⟩

theorem char_ofNat_toNat (c : Char) : Char.ofNat c.toNat = c := by
  apply Char.eq_of_val_eq
  have hvalid : c.toNat.isValidChar := c.valid
  rw [Char.ofNat, dif_pos hvalid]
  obtain ⟨⟨⟨n, hn⟩⟩, hv⟩ := c
  rfl

/-- Helper: ASCII encoding succeeds for a string of characters below 128. -/
theorem encode_of_ascii (v : String) (hA : ∀ c ∈ v.data, c.toNat < 128) :
    encode_ascii v = some (v.data.map Char.toNat) := by
  unfold encode_ascii
  rw [if_pos (List.all_eq_true.mpr (fun c hc => decide_eq_true (hA c hc)))]

/-- Helper: decoding an ASCII-encoded string plus zero padding yields the
original characters followed by that many NUL characters. -/
theorem decode_map_pad (v : String) (k : Nat) (hA : ∀ c ∈ v.data, c.toNat < 128) :
    decode_ascii (v.data.map Char.toNat ++ List.replicate k 0) =
      some (String.mk (v.data ++ List.replicate k (Char.ofNat 0))) := by
  unfold decode_ascii
  rw [if_pos]
  · congr 1
    rw [List.map_append, List.map_map, List.map_replicate]
    congr 1
    have h : ∀ c ∈ v.data, (Char.ofNat ∘ Char.toNat) c = id c :=
      fun c _ => char_ofNat_toNat c
    rw [List.map_congr_left h, List.map_id]
  · refine List.all_eq_true.mpr (fun b hb => ?_)
    rcases List.mem_append.mp hb with h | h
    · obtain ⟨c, hc, rfl⟩ := List.mem_map.mp h
      exact decide_eq_true (hA c hc)
    · have h0 := List.eq_of_mem_replicate h
      subst h0
      exact decide_eq_true (by omega)

theorem pad_nuls_length (n : Nat) (v : String) :
    (pad_nuls n v).length = v.length + (n - v.length) := by
  rcases v with ⟨d⟩
  simp [pad_nuls, String.length]

/-- Helper: the padded read-back of a string of length at most 32 is not the
empty string (hence Python-truthy). -/
theorem pad_nuls_ne_empty (w : String) (hw : w.length ≤ 32) :
    pad_nuls 32 w ≠ "" := by
  intro heq
  have h := congrArg String.length heq
  rw [pad_nuls_length] at h
  rw [show ("" : String).length = 0 from rfl] at h
  omega

/-- Claim C10: `Config.get` decodes the whole declared-capacity buffer, so a
`get` after `set` of an ASCII value `v` with `len v ≤ N` returns `v` followed
by the buffer's remaining zero-padding bytes; the round-trip returns `v`
itself exactly when `v` fills the declared capacity; and the credentials read
back by `get_wifi_credentials` after `set_wifi_credentials` are the 32-byte
NUL-padded forms of the stored ssid and password. -/
theorem C10_config_padded_roundtrip :
    (∀ (nvs nvs2 : Nvs) (key name : String) (N : Nat) (v : String) (r : Bool),
      key_split key = some (name, N) →
      (∀ c ∈ v.data, c.toNat < 128) →
      v.length ≤ N →
      Config.set nvs key v = .ok nvs2 →
      Config.get nvs2 key r = .ok (some (pad_nuls N v))) ∧
    (∀ (N : Nat) (v : String), v.length ≤ N → (pad_nuls N v = v ↔ v.length = N)) ∧
    (∀ (nvs out : Nvs) (s p : String),
      (∀ c ∈ s.data, c.toNat < 128) → (∀ c ∈ p.data, c.toNat < 128) →
      s.length ≤ 32 → p.length ≤ 32 →
      set_wifi_credentials (.str s) (.str p) nvs = (.ok (), out) →
      get_wifi_credentials out = .ok (pad_nuls 32 s, pad_nuls 32 p)) := by
  have hset_eq : ∀ (nvs : Nvs) (key name : String) (N : Nat) (v : String),
      key_split key = some (name, N) → (∀ c ∈ v.data, c.toNat < 128) →
      Config.set nvs key v = .ok ((name, v.data.map Char.toNat) :: nvs) := by
    intro nvs key name N v hkey hA
    unfold Config.set
    rw [hkey, encode_of_ascii v hA]
    rfl
  refine ⟨?_, ?_, ?_⟩
  · intro nvs nvs2 key name N v r hkey hA hlen hset
    rw [hset_eq nvs key name N v hkey hA] at hset
    injection hset with hset
    subst hset
    unfold Config.get
    rw [hkey]
    dsimp only
    rw [show nvsLookup ((name, v.data.map Char.toNat) :: nvs) name =
        some (v.data.map Char.toNat) by simp [nvsLookup, List.lookup]]
    dsimp only
    rw [if_pos (show (v.data.map Char.toNat).length ≤ N from by
        rw [List.length_map]; exact hlen)]
    rw [show N - (v.data.map Char.toNat).length = N - v.length from by
        rw [List.length_map]; rfl]
    rw [decode_map_pad v _ hA]
    rfl
  · intro N v hle
    constructor
    · intro h
      have hl := congrArg String.length h
      rw [pad_nuls_length] at hl
      omega
    · intro h
      rcases v with ⟨d⟩
      simp only [String.length] at h
      simp [pad_nuls, String.length, h]
  · intro nvs out s p hAs hAp hls hlp hset
    have hks : key_split "ssid:32" = some ("ssid", 32) := rfl
    have hkp : key_split "password:32" = some ("password", 32) := rfl
    simp only [set_wifi_credentials, cfg_set_json] at hset
    rw [hset_eq nvs "ssid:32" "ssid" 32 s hks hAs] at hset
    simp only at hset
    rw [hset_eq (("ssid", s.data.map Char.toNat) :: nvs) "password:32"
        "password" 32 p hkp hAp] at hset
    simp only at hset
    injection hset with _ hout
    subst hout
    have g1 : Config.get (("password", p.data.map Char.toNat) ::
        ("ssid", s.data.map Char.toNat) :: nvs) "ssid:32" false =
        .ok (some (pad_nuls 32 s)) := by
      unfold Config.get
      rw [hks]
      dsimp only
      rw [show nvsLookup (("password", p.data.map Char.toNat) ::
          ("ssid", s.data.map Char.toNat) :: nvs) "ssid" =
          some (s.data.map Char.toNat) by simp [nvsLookup, List.lookup]]
      dsimp only
      rw [if_pos (show (s.data.map Char.toNat).length ≤ 32 from by
          rw [List.length_map]; exact hls)]
      rw [show (32 : Nat) - (s.data.map Char.toNat).length = 32 - s.length from
          by rw [List.length_map]; rfl]
      rw [decode_map_pad s _ hAs]
      rfl
    have g2 : Config.get (("password", p.data.map Char.toNat) ::
        ("ssid", s.data.map Char.toNat) :: nvs) "password:32" false =
        .ok (some (pad_nuls 32 p)) := by
      unfold Config.get
      rw [hkp]
      dsimp only
      rw [show nvsLookup (("password", p.data.map Char.toNat) ::
          ("ssid", s.data.map Char.toNat) :: nvs) "password" =
          some (p.data.map Char.toNat) by simp [nvsLookup, List.lookup]]
      dsimp only
      rw [if_pos (show (p.data.map Char.toNat).length ≤ 32 from by
          rw [List.length_map]; exact hlp)]
      rw [show (32 : Nat) - (p.data.map Char.toNat).length = 32 - p.length from
          by rw [List.length_map]; rfl]
      rw [decode_map_pad p _ hAp]
      rfl
    unfold get_wifi_credentials
    rw [g1]
    dsimp only
    rw [g2]
    dsimp only
    have d1 : pyTruthyStr (some (pad_nuls 32 s)) = true := by
      simp only [pyTruthyStr]
      exact decide_eq_true (pad_nuls_ne_empty s hls)
    have d2 : pyTruthyStr (some (pad_nuls 32 p)) = true := by
      simp only [pyTruthyStr]
      exact decide_eq_true (pad_nuls_ne_empty p hlp)
    rw [if_neg (by rw [d1, d2]; simp)]
    rfl

/-- Witness for C10 at concrete inputs: `set` then `get` of `"home"` under
`ssid:32` yields the 32-byte padded string, equal to the original exactly when
the value fills the capacity, and `get_wifi_credentials` returns the padded
pair. -/
theorem C10_config_padded_roundtrip_witness :
    Config.get [("ssid", "home".data.map Char.toNat)] "ssid:32" false =
      .ok (some (pad_nuls 32 "home")) ∧
    (pad_nuls 32 "home" = "home" ↔ "home".length = 32) ∧
    get_wifi_credentials [("password", "pw".data.map Char.toNat),
        ("ssid", "home".data.map Char.toNat)] =
      .ok (pad_nuls 32 "home", pad_nuls 32 "pw") :=
  ⟨C10_config_padded_roundtrip.1 [] [("ssid", "home".data.map Char.toNat)]
      "ssid:32" "ssid" 32 "home" false rfl (by decide) (by decide) rfl,
   C10_config_padded_roundtrip.2.1 32 "home" (by decide),
   C10_config_padded_roundtrip.2.2 [] [("password", "pw".data.map Char.toNat),
      ("ssid", "home".data.map Char.toNat)] "home" "pw" (by decide) (by decide)
      (by decide) (by decide) rfl⟩

/-- Helper: `set_hostname` only ever touches the applied hostname and the
NVS section; every other device field is preserved on every branch. -/
theorem set_hostname_state (e : Option String) (ctx : NetCtx) (d : Device) :
    ((set_hostname e ctx d).2.sta_active = d.sta_active) ∧
    ((set_hostname e ctx d).2.ap_active = d.ap_active) ∧
    ((set_hostname e ctx d).2.ap_essid = d.ap_essid) ∧
    ((set_hostname e ctx d).2.ap_password = d.ap_password) ∧
    ((set_hostname e ctx d).2.ap_authmode = d.ap_authmode) ∧
    ((set_hostname e ctx d).2.ap_pm_none = d.ap_pm_none) := by
  unfold set_hostname net_set_hostname
  refine ⟨?_, ?_, ?_, ?_, ?_, ?_⟩ <;> (repeat' (first | split | dsimp only))

/-- Helper: the device state after `ap_start` — AP activated and configured
with the source's `essid`/`password`/`authmode`/`pm` expressions, the station
activation flag untouched. -/
theorem ap_start_fields (ssid pw : Option String) (ctx : NetCtx) (d : Device) :
    (ap_start ssid pw ctx d).2.sta_active = d.sta_active ∧
    (ap_start ssid pw ctx d).2.ap_active = true ∧
    (ap_start ssid pw ctx d).2.ap_essid =
      some (if pyTruthyStr ssid then ssid.getD "" else default_ap_ssid ctx) ∧
    (ap_start ssid pw ctx d).2.ap_password =
      some (if pyTruthyStr pw then pw.getD "" else "") ∧
    (ap_start ssid pw ctx d).2.ap_authmode =
      some (if pyTruthyStr pw then AuthMode.AUTH_WPA_WPA2_PSK else .AUTH_OPEN) ∧
    (ap_start ssid pw ctx d).2.ap_pm_none = true := by
  have h := set_hostname_state none ctx { d with
    ap_active := true
    ap_essid := some (if pyTruthyStr ssid then ssid.getD "" else default_ap_ssid ctx)
    ap_password := some (if pyTruthyStr pw then pw.getD "" else "")
    ap_authmode := some (if pyTruthyStr pw then AuthMode.AUTH_WPA_WPA2_PSK else .AUTH_OPEN)
    ap_pm_none := true }
  exact ⟨h.1, h.2.1, h.2.2.1, h.2.2.2.1, h.2.2.2.2.1, h.2.2.2.2.2⟩

/-- Claim C5: the resolution order of `set_hostname` evaluated on the code.
Branches 1 and 2 behave as the spec says (explicit hostname applied, persisted
— as its padded stored form on read-back — and returned, with the >16-byte
`ValueError`; persisted hostname applied and returned), and `generate` yields
the specified strings.  But branch 3 (no explicit, no persisted hostname) is
broken: the source passes the un-awaited `generate_hostname()` coroutine
object to `network.hostname(...)`, which raises `TypeError`, so the generated
hostname is neither applied nor persisted — the device state is unchanged. -/
theorem C5_hostname_resolution_bug :
    generate_hostname true ctx0 = "vito_ddeeff" ∧
    generate_hostname false ctx0 = "vito" ∧
    (set_hostname (some "myhost") ctx0 dev0).1 = .ok "myhost" ∧
    (set_hostname (some "myhost") ctx0 dev0).2.net_hostname = .str "myhost" ∧
    Config.get (set_hostname (some "myhost") ctx0 dev0).2.nvs "hostname:16" false
      = .ok (some (pad_nuls 16 "myhost")) ∧
    (set_hostname (some "averylonghostname17") ctx0 dev0).1 = .error .valueError ∧
    (set_hostname none ctx0 ((set_hostname (some "myhost") ctx0 dev0).2)).1
      = .ok (pad_nuls 16 "myhost") ∧
    set_hostname none ctx0 dev0 = (.error .typeError, dev0) :=
  ⟨rfl, rfl, rfl, rfl, rfl, rfl, rfl, rfl⟩

/-- Claim C6 counterexample: with a password supplied, `ap_start` configures
`network.AUTH_WPA_WPA2_PSK` — the WPA/WPA2 mixed PSK mode, a mode distinct
from plain WPA2-PSK — so the claim's "WPA2-PSK" is not what the code sets. -/
theorem C6_counterexample :
    (ap_start none (some "secret") ctx0 dev0).2.ap_authmode =
      some .AUTH_WPA_WPA2_PSK ∧
    AuthMode.AUTH_WPA_WPA2_PSK ≠ AuthMode.AUTH_WPA2_PSK :=
  ⟨rfl, by decide⟩

/-- Claim C6 as amended: the AP security mode is Open when no password is
supplied and WPA/WPA2 mixed PSK (`AUTH_WPA_WPA2_PSK`) when one is supplied;
power management is disabled; and with no ssid argument the essid is
`<appname>-<last-6-hex-of-AP-MAC>`. -/
theorem C6_amended_ap_config :
    ∀ (ctx : NetCtx) (d : Device) (pw : String),
      (ap_start none none ctx d).2.ap_authmode = some .AUTH_OPEN ∧
      (ap_start none none ctx d).2.ap_password = some "" ∧
      (ap_start none none ctx d).2.ap_essid =
        some (ctx.app_name ++ "-" ++ lastChars 6 (bytesHex ctx.ap_mac)) ∧
      (ap_start none none ctx d).2.ap_pm_none = true ∧
      (pw ≠ "" → (ap_start none (some pw) ctx d).2.ap_authmode =
        some .AUTH_WPA_WPA2_PSK) ∧
      (pw ≠ "" → (ap_start none (some pw) ctx d).2.ap_password = some pw) := by
  intro ctx d pw
  refine ⟨?_, ?_, ?_, (ap_start_fields none none ctx d).2.2.2.2.2,
    fun hpw => ?_, fun hpw => ?_⟩
  · simpa [pyTruthyStr] using (ap_start_fields none none ctx d).2.2.2.2.1
  · simpa [pyTruthyStr] using (ap_start_fields none none ctx d).2.2.2.1
  · simpa [pyTruthyStr, default_ap_ssid] using (ap_start_fields none none ctx d).2.2.1
  · simpa [pyTruthyStr, hpw] using (ap_start_fields none (some pw) ctx d).2.2.2.2.1
  · simpa [pyTruthyStr, hpw] using (ap_start_fields none (some pw) ctx d).2.2.2.1

/-- Witness for C6's amended theorem at a concrete password. -/
theorem C6_amended_ap_config_witness :
    (ap_start none (some "pw") ctx0 dev0).2.ap_authmode =
      some AuthMode.AUTH_WPA_WPA2_PSK ∧
    (ap_start none none ctx0 dev0).2.ap_authmode = some AuthMode.AUTH_OPEN :=
  ⟨(C6_amended_ap_config ctx0 dev0 "pw").2.2.2.2.1 (by decide),
   (C6_amended_ap_config ctx0 dev0 "pw").1⟩

/-- Claim C9: interface independence — `ap_start`/`ap_stop` leave the station
activation flag unchanged, and `sta_connect`/`sta_disconnect` leave the
access-point activation flag unchanged. -/
theorem C9_interface_independence :
    ∀ (ssid pw : Option String) (ctx : NetCtx) (d : Device) (env : StaEnv)
      (st timeout : Nat),
      (ap_start ssid pw ctx d).2.sta_active = d.sta_active ∧
      (ap_stop d).sta_active = d.sta_active ∧
      (sta_connect_dev env st timeout d).2.ap_active = d.ap_active ∧
      (sta_disconnect d).ap_active = d.ap_active := by
  intro ssid pw ctx d env st timeout
  refine ⟨(ap_start_fields ssid pw ctx d).1, rfl, ?_, rfl⟩
  unfold sta_connect_dev
  dsimp only
  split <;> split_ifs <;> rfl

end VitoPy
